import Mathlib

/-!
Verification of the Hyprland time-tracker against its specification.

The repository ships two React frontends (`frontend`, `frontend-cute`) plus
install/test scripts; the FastAPI backend (`tracker.py`, `main.py`,
`database.py`) referenced by the README is not part of the visible sources.
Pure frontend functions (`formatDuration`, `fetchJSON`) are embedded directly
from the JavaScript; the session state machine, tracking coordinator,
aggregation engine and folder operations are modelled from the specification
(each such definition carries a `Modelled from the spec:` doc comment).

Timestamps are seconds since the epoch, represented as `Nat`; local days are
the `86400`-second buckets of those timestamps.
-/

namespace TimeTracker

/-- A probe result: the focused application name and window title
(spec §4.1, `sample() → {app_name, window_title} | none`; a failed tick is
`none`). -/
structure Sample where
  app : String
  window : String
deriving Repr, DecidableEq

/-- A session row of the store (spec §3): task id, app name, window title,
start timestamp, and nullable end timestamp (`none` means currently open). -/
structure Session where
  taskId : Nat
  app : String
  window : String
  start : Nat
  stop : Option Nat
deriving Repr, DecidableEq

/-- The in-memory open segment of the state machine (spec §4.2 `Tracking`
fields `current_app`, `current_window`, `segment_start`, `last_sample_time`).
`sampled` records whether a real probe sample has populated the app/window
fields yet (spec §4.2 rule 5: fields are populated lazily from the tick
following `start`, defaulting to "unknown"). -/
structure OpenSeg where
  app : String
  window : String
  segStart : Nat
  lastSample : Nat
  sampled : Bool
deriving Repr, DecidableEq

/-- Modelled from the spec: §4.2 states `Stopped` and
`Tracking(task_id, current_app, current_window, segment_start,
last_sample_time)`; while `Tracking`, the open segment is absent after an
idle close (rule 1: "remain Tracking with no open session"). -/
inductive TrackState where
  | stopped
  | tracking (taskId : Nat) (seg : Option OpenSeg)
deriving Repr, DecidableEq

/-- Whole system state: the task table (ids only), the tracking state, and the
session store (append-mostly list of rows, spec §2 "Session Store"). -/
structure SysState where
  tasks : List Nat
  track : TrackState
  store : List Session
deriving Repr, DecidableEq

/-- The fresh system state: no tracking has ever run, the store is empty. -/
def initState (tasks : List Nat) : SysState :=
  ⟨tasks, .stopped, []⟩

/-- Modelled from the spec: closing "the open session" of the store at end
time `e` — the row whose end timestamp is null gets it set to `e`
(spec §3: at most one such row exists). -/
def closeOpen (e : Nat) (store : List Session) : List Session :=
  store.map fun s => if s.stop.isNone then { s with stop := some e } else s

/-- Modelled from the spec: §4.2 rule 5's lazy population — the open session
row's app/window fields are filled in from the first sample after `start`. -/
def populate (a w : String) (store : List Session) : List Session :=
  store.map fun s => if s.stop.isNone then { s with app := a, window := w } else s

/-- Modelled from the spec: one poll tick of the Session State Machine
(spec §4.2, transitions 1–3; `idle` is the configured idle timeout in
seconds).  A probe failure is folded into the `none` case (spec §4.2
"failure semantics"). -/
def tick (idle now : Nat) (smp : Option Sample) (st : SysState) : SysState :=
  match st.track with
  | .stopped => st
  | .tracking tid none =>
      match smp with
      | none => st
      | some s =>
          { st with
            track := .tracking tid (some ⟨s.app, s.window, now, now, true⟩),
            store := st.store ++ [⟨tid, s.app, s.window, now, none⟩] }
  | .tracking tid (some seg) =>
      match smp with
      | none =>
          if idle ≤ now - seg.lastSample then
            { st with
              track := .tracking tid none,
              store := closeOpen seg.lastSample st.store }
          else st
      | some s =>
          if seg.sampled then
            if s.app = seg.app ∧ s.window = seg.window then
              { st with track := .tracking tid (some { seg with lastSample := now }) }
            else
              { st with
                track := .tracking tid (some ⟨s.app, s.window, now, now, true⟩),
                store := closeOpen now st.store ++ [⟨tid, s.app, s.window, now, none⟩] }
          else
            { st with
              track := .tracking tid (some ⟨s.app, s.window, seg.segStart, now, true⟩),
              store := populate s.app s.window st.store }

/-- Modelled from the spec: §4.3 / §7 error taxonomy of the Tracking
Coordinator. -/
inductive TrackError where
  | invalidTask
  | alreadyTracking
  | notTracking
deriving Repr, DecidableEq

/-- Modelled from the spec: the human-readable reason string attached to a
coordinator failure (spec §7: "a clear reason"). -/
def TrackError.reason : TrackError → String
  | .invalidTask => "Task not found"
  | .alreadyTracking => "Already tracking a task"
  | .notTracking => "No active tracking"

/-- Modelled from the spec: `start(task_id)` (spec §4.3) — `InvalidTask` if
the task id does not exist, `AlreadyTracking` if tracking is already active;
on success opens a new session at command time with app "unknown" until the
first sample arrives (spec §4.2 rule 5) and returns the open-session
descriptor. -/
def startCmd (now taskId : Nat) (st : SysState) :
    Except TrackError (SysState × Session) :=
  if taskId ∈ st.tasks then
    match st.track with
    | .stopped =>
        let sess : Session := ⟨taskId, "unknown", "", now, none⟩
        .ok ({ st with
                track := .tracking taskId (some ⟨"unknown", "", now, now, false⟩),
                store := st.store ++ [sess] }, sess)
    | .tracking _ _ => .error .alreadyTracking
  else .error .invalidTask

/-- Modelled from the spec: `stop()` (spec §4.3) — `NotTracking` if nothing is
open; otherwise closes the open session at command time and returns its final
duration (`end − start`). -/
def stopCmd (now : Nat) (st : SysState) : Except TrackError (SysState × Nat) :=
  match st.track with
  | .tracking _ (some seg) =>
      .ok ({ st with track := .stopped, store := closeOpen now st.store },
           now - seg.segStart)
  | _ => .error .notTracking

/-- An external event driving the system: a poll tick carrying the probe
result, or a start/stop command from the API (spec §2 control flow). -/
inductive Event where
  | probe (now : Nat) (smp : Option Sample)
  | start (now : Nat) (taskId : Nat)
  | stop (now : Nat)
deriving Repr, DecidableEq

/-- Modelled from the spec: one step of the whole system.  Command failures
leave the state unchanged (the coordinator reports the error to the caller,
spec §7). -/
def step (idle : Nat) (st : SysState) (ev : Event) : SysState :=
  match ev with
  | .probe now smp => tick idle now smp st
  | .start now tid =>
      match startCmd now tid st with
      | .ok (st', _) => st'
      | .error _ => st
  | .stop now =>
      match stopCmd now st with
      | .ok (st', _) => st'
      | .error _ => st

/-- Run the system over a sequence of events. -/
def run (idle : Nat) (st : SysState) (evs : List Event) : SysState :=
  evs.foldl (step idle) st

/-- Number of session rows with a null end timestamp. -/
def openCount (store : List Session) : Nat :=
  store.countP fun s => s.stop.isNone

/-- Whether the tracking state carries an open segment. -/
def hasOpenSeg : TrackState → Bool
  | .tracking _ (some _) => true
  | _ => false

/-- The coupling invariant between the tracking state and the store: the
store holds exactly one open row when a segment is open, none otherwise. -/
def goodState (st : SysState) : Prop :=
  openCount st.store = if hasOpenSeg st.track then 1 else 0

/-- The local day bucket containing a timestamp (spec §4.4: days are
`[date 00:00, date 24:00)` windows of local time; with timestamps in local
seconds these are the `86400`-second buckets). -/
def dayOf (t : Nat) : Nat :=
  t / 86400

/-- Derived duration of a closed session, `end − start` (spec §3); an open
row contributes nothing here. -/
def closedDuration (s : Session) : Nat :=
  match s.stop with
  | some e => e - s.start
  | none => 0

/-- Modelled from the spec: §4.4's uniform duration formula — closed sessions
count `end − start`, the currently-open session counts `now − start`. -/
def liveDuration (now : Nat) (s : Session) : Nat :=
  match s.stop with
  | some e => e - s.start
  | none => now - s.start

/-- Whether no session row of the store is open. -/
def noOpen (store : List Session) : Bool :=
  store.all fun s => s.stop.isSome

/-- Modelled from the spec: the timeline query — the raw list of sessions of
one day (spec §6 `GET /timeline?date=...`), a session belonging to the day
containing its start timestamp (spec §4.4 edge-case policy). -/
def timeline (d : Nat) (store : List Session) : List Session :=
  store.filter fun s => dayOf s.start == d

/-- Modelled from the spec: the daily-stats total for one day — sum of
durations of closed sessions whose start falls within the day
(spec §4.4 "Daily stats(date)"). -/
def dailyTotal (d : Nat) (store : List Session) : Nat :=
  ((store.filter fun s => s.stop.isSome && (dayOf s.start == d)).map
    closedDuration).sum

/-- Modelled from the spec: the summary's "today" figure — durations of all
sessions (the open one included, live) whose start falls in today's bucket
(spec §4.4 "Summary"). -/
def summaryToday (now : Nat) (store : List Session) : Nat :=
  ((store.filter fun s => dayOf s.start == dayOf now).map
    (liveDuration now)).sum

/-- Modelled from the spec: the summary's all-time total — every session's
duration under the uniform formula (spec §4.4 "Summary"). -/
def summaryAllTime (now : Nat) (store : List Session) : Nat :=
  (store.map (liveDuration now)).sum

/-- Modelled from the spec: the tracker-status snapshot
`{running, task_id, current_app, current_window}` (spec §4.3 `status()`), a
pure read of the state. -/
structure StatusResp where
  running : Bool
  taskId : Option Nat
  currentApp : Option String
  currentWindow : Option String
deriving Repr, DecidableEq

/-- Modelled from the spec: `status()` (spec §4.3), defined for every state
and never erroring. -/
def statusQuery (st : SysState) : StatusResp :=
  match st.track with
  | .stopped => ⟨false, none, none, none⟩
  | .tracking tid none => ⟨true, some tid, none, none⟩
  | .tracking tid (some seg) => ⟨true, some tid, some seg.app, some seg.window⟩

/-- Modelled from the spec: the bundle of read-query results served by the
query surface; read queries are total (spec §7: read queries "always
succeed"), so the bundle is wrapped in `Except` only to state that the
error branch is never taken. -/
def readQueries (now d : Nat) (st : SysState) :
    Except String (StatusResp × Nat × Nat × List Session) :=
  .ok (statusQuery st, summaryToday now st.store, dailyTotal d st.store,
       timeline d st.store)

/-- Modelled from the spec: an HTTP-style response of the command surface —
status code plus the optional `{detail: reason}` body field (spec §6:
"non-2xx + `{detail: reason}` on failure"). -/
structure ApiResponse where
  status : Nat
  detail : Option String
deriving Repr, DecidableEq

/-- Modelled from the spec: how the command surface translates a coordinator
result into a response (spec §7: domain failures become structured responses
with a reason string; FastAPI surfaces them as `{detail: ...}`). -/
def cmdResponse {α : Type} (r : Except TrackError α) : ApiResponse :=
  match r with
  | .ok _ => ⟨200, none⟩
  | .error e => ⟨400, some e.reason⟩

/-- A status code counts as 2xx when it lies in `[200, 300)`. -/
def is2xx (code : Nat) : Bool :=
  200 ≤ code && code < 300

/-- Modelled from the spec: a folder row (spec §3). -/
structure FolderRec where
  id : Nat
  name : String
deriving Repr, DecidableEq

/-- Modelled from the spec: a task row with its owning folder id (spec §3). -/
structure TaskRec where
  id : Nat
  title : String
  folderId : Nat
deriving Repr, DecidableEq

/-- Modelled from the spec: the folder/task tables plus the distinguished
default folder id (spec §3: "exactly one distinguished default folder always
exists"). -/
structure FolderDb where
  folders : List FolderRec
  defaultId : Nat
  tasks : List TaskRec
deriving Repr, DecidableEq

/-- Modelled from the spec: §7 folder-error taxonomy. -/
inductive FolderError where
  | cannotDeleteDefault
  | folderNotFound
  | duplicateFolderName
deriving Repr, DecidableEq

/-- Whether a folder id exists in the table. -/
def hasFolder (db : FolderDb) (fid : Nat) : Bool :=
  db.folders.any fun f => f.id == fid

/-- Modelled from the spec: folder deletion (spec §3) — the default folder
cannot be deleted; deleting any other folder removes it and reassigns its
tasks to the default folder, deleting no task. -/
def deleteFolder (fid : Nat) (db : FolderDb) : Except FolderError FolderDb :=
  if fid = db.defaultId then .error .cannotDeleteDefault
  else if hasFolder db fid then
    .ok { db with
          folders := db.folders.filter fun f => f.id != fid,
          tasks := db.tasks.map fun t =>
            if t.folderId = fid then { t with folderId := db.defaultId } else t }
  else .error .folderNotFound

/-- Modelled from the spec: folder creation (spec §3/§7) — rejects a
duplicate name, otherwise appends the new folder; tasks are untouched. -/
def createFolder (fid : Nat) (name : String) (db : FolderDb) :
    Except FolderError FolderDb :=
  if db.folders.any fun f => f.name == name then .error .duplicateFolderName
  else .ok { db with folders := db.folders ++ [⟨fid, name⟩] }

/-- Modelled from the spec: folder rename (spec §6) — changes only the name
of the addressed folder; ids and tasks are untouched. -/
def renameFolder (fid : Nat) (name : String) (db : FolderDb) :
    Except FolderError FolderDb :=
  if hasFolder db fid then
    .ok { db with folders := db.folders.map fun f =>
            if f.id = fid then { f with name := name } else f }
  else .error .folderNotFound

/-- No task's folder id dangles: every task belongs to an existing folder. -/
def noOrphans (db : FolderDb) : Prop :=
  ∀ t ∈ db.tasks, hasFolder db t.folderId = true

end TimeTracker

namespace Frontend

/-- `formatDuration` from `src/frontend/src/lib/utils.js` (lines 13–22),
embedded over integer seconds.  JavaScript's `!seconds` guard is `seconds = 0`
for integers; `Math.floor(x / y)` is `Int.fdiv` and the JavaScript remainder
`%` (sign of the dividend) is `Int.tmod`. -/
def formatDuration (seconds : Int) : String :=
  if seconds = 0 then "0s"
  else
    let hours := Int.fdiv seconds 3600
    let minutes := Int.fdiv (Int.tmod seconds 3600) 60
    let secs := Int.tmod seconds 60
    if hours > 0 then s!"{hours}h {minutes}m"
    else if minutes > 0 then s!"{minutes}m {secs}s"
    else s!"{secs}s"

end Frontend

namespace FrontendCute

/-- `formatDuration` from `src/unnamed/part_015` (the cute frontend's
`lib/utils.js`, lines 7–21), embedded over integer seconds.  Identical to the
classic one except for the extra `seconds < 0` guard. -/
def formatDuration (seconds : Int) : String :=
  if seconds = 0 ∨ seconds < 0 then "0s"
  else
    let hours := Int.fdiv seconds 3600
    let minutes := Int.fdiv (Int.tmod seconds 3600) 60
    let secs := Int.tmod seconds 60
    if hours > 0 then s!"{hours}h {minutes}m"
    else if minutes > 0 then s!"{minutes}m {secs}s"
    else s!"{secs}s"

/-- JavaScript's `error.detail || 'Request failed'` from `fetchJSON`
(`src/unnamed/part_016`, the cute frontend's `lib/api.js`, lines 6–23): a
missing or falsy (empty) `detail` falls back to the fixed message. -/
def detailOrFallback : Option String → String
  | some d => if d = "" then "Request failed" else d
  | none => "Request failed"

/-- `fetchJSON` from `src/unnamed/part_016` (lines 6–23), embedded over an
already-received response: on a non-ok response it throws the body's
`detail` field (with fallback), on an ok response it returns the parsed
body. -/
def fetchJSON {α : Type} (ok : Bool) (errDetail : Option String) (body : α) :
    Except String α :=
  if ok then .ok body else .error (detailOrFallback errDetail)

end FrontendCute

namespace TimeTracker

theorem openCount_append (l₁ l₂ : List Session) :
    openCount (l₁ ++ l₂) = openCount l₁ + openCount l₂ :=
  List.countP_append _ _ _

theorem openCount_singleton_open (tid : Nat) (a w : String) (t : Nat) :
    openCount [{ taskId := tid, app := a, window := w, start := t,
                 stop := none }] = 1 := by
  simp [openCount]

theorem openCount_closeOpen (e : Nat) (l : List Session) :
    openCount (closeOpen e l) = 0 := by
  simp only [openCount, closeOpen]
  rw [List.countP_eq_zero]
  intro s hs
  simp only [List.mem_map] at hs
  obtain ⟨t, ht, rfl⟩ := hs
  by_cases h : t.stop.isNone = true <;> simp [h]

theorem openCount_populate (a w : String) (l : List Session) :
    openCount (populate a w l) = openCount l := by
  simp only [openCount, populate]
  induction l with
  | nil => rfl
  | cons s l ih =>
      simp only [List.map_cons, List.countP_cons, ih]
      by_cases h : s.stop.isNone = true <;> simp [h]

theorem goodState_init (tasks : List Nat) : goodState (initState tasks) := by
  simp [goodState, initState, openCount, hasOpenSeg]

theorem goodState_step (idle : Nat) (ev : Event) (st : SysState)
    (h : goodState st) : goodState (step idle st ev) := by
  obtain ⟨tks, tr, sto⟩ := st
  cases ev with
  | probe now smp =>
      cases tr with
      | stopped => simpa [step, tick] using h
      | tracking tid seg =>
          cases seg with
          | none =>
              cases smp with
              | none => simpa [step, tick] using h
              | some s =>
                  have h0 : openCount sto = 0 := by
                    simpa [goodState, hasOpenSeg] using h
                  simp [step, tick, goodState, hasOpenSeg, openCount_append,
                        h0, openCount_singleton_open]
          | some sg =>
              have h1 : openCount sto = 1 := by
                simpa [goodState, hasOpenSeg] using h
              cases smp with
              | none =>
                  by_cases hidle : idle ≤ now - sg.lastSample
                  · simp [step, tick, hidle, goodState, hasOpenSeg,
                          openCount_closeOpen]
                  · simpa [step, tick, hidle, goodState, hasOpenSeg] using h1
              | some s =>
                  by_cases hsampled : sg.sampled = true
                  · by_cases hsame : s.app = sg.app ∧ s.window = sg.window
                    · simp [step, tick, hsampled, hsame, goodState,
                            hasOpenSeg, h1]
                    · simp [step, tick, hsampled, hsame, goodState,
                            hasOpenSeg, openCount_append, openCount_closeOpen,
                            openCount_singleton_open]
                  · simp [step, tick, hsampled, goodState, hasOpenSeg,
                          openCount_populate, h1]
  | start now tid =>
      by_cases htid : tid ∈ tks
      · cases tr with
        | stopped =>
            have h0 : openCount sto = 0 := by
              simpa [goodState, hasOpenSeg] using h
            simp [step, startCmd, htid, goodState, hasOpenSeg,
                  openCount_append, h0, openCount_singleton_open]
        | tracking t sg => simpa [step, startCmd, htid] using h
      · simpa [step, startCmd, htid] using h
  | stop now =>
      cases tr with
      | stopped => simpa [step, stopCmd] using h
      | tracking tid seg =>
          cases seg with
          | none => simpa [step, stopCmd] using h
          | some sg =>
              simp [step, stopCmd, goodState, hasOpenSeg, openCount_closeOpen]

theorem goodState_run (idle : Nat) (evs : List Event) (st : SysState)
    (h : goodState st) : goodState (run idle st evs) := by
  induction evs generalizing st with
  | nil => exact h
  | cons e evs ih => exact ih _ (goodState_step idle e st h)

theorem run_cons (idle : Nat) (st : SysState) (e : Event) (evs : List Event) :
    run idle st (e :: evs) = run idle (step idle st e) evs :=
  rfl

theorem run_append (idle : Nat) (st : SysState) (l₁ l₂ : List Event) :
    run idle st (l₁ ++ l₂) = run idle (run idle st l₁) l₂ :=
  List.foldl_append _ _ _ _

theorem run_same_sample (idle tid t0 : Nat) (a w : String) (ts : List Nat) :
    ∀ (tks : List Nat) (a' w' : String) (seg : OpenSeg),
      (seg.sampled = true → seg.app = a ∧ seg.window = w) →
      ∃ (a'' w'' : String) (seg' : OpenSeg),
        run idle ⟨tks, .tracking tid (some seg), [⟨tid, a', w', t0, none⟩]⟩
            (ts.map fun t => .probe t (some ⟨a, w⟩))
          = ⟨tks, .tracking tid (some seg'), [⟨tid, a'', w'', t0, none⟩]⟩ ∧
        (seg'.sampled = true → seg'.app = a ∧ seg'.window = w) := by
  induction ts with
  | nil =>
      intro tks a' w' seg hseg
      exact ⟨a', w', seg, rfl, hseg⟩
  | cons t ts ih =>
      intro tks a' w' seg hseg
      rw [List.map_cons, run_cons]
      by_cases hsamp : seg.sampled = true
      · obtain ⟨ha, hw⟩ := hseg hsamp
        have hstep :
            step idle ⟨tks, .tracking tid (some seg), [⟨tid, a', w', t0, none⟩]⟩
                (.probe t (some ⟨a, w⟩))
              = ⟨tks, .tracking tid (some { seg with lastSample := t }),
                 [⟨tid, a', w', t0, none⟩]⟩ := by
          simp [step, tick, hsamp, ha, hw]
        rw [hstep]
        exact ih tks a' w' _ (fun _ => ⟨ha, hw⟩)
      · have hsamp' : seg.sampled = false := by simpa using hsamp
        have hstep :
            step idle ⟨tks, .tracking tid (some seg), [⟨tid, a', w', t0, none⟩]⟩
                (.probe t (some ⟨a, w⟩))
              = ⟨tks, .tracking tid (some ⟨a, w, seg.segStart, t, true⟩),
                 [⟨tid, a, w, t0, none⟩]⟩ := by
          simp [step, tick, hsamp', populate]
        rw [hstep]
        exact ih tks a w _ (fun _ => ⟨rfl, rfl⟩)

/-- C2: while `Tracking`, once the probe has yielded `none` (failed ticks
included — the adapter folds them into `none`) for at least `idle` seconds,
the tick closes the open session with its end set to `seg.lastSample` — the
timestamp of the last real sample, not the idle-detection time `now` — and
remains `Tracking` with no open session: further `none` ticks change nothing,
and the next non-idle sample reopens a session at its own timestamp. -/
theorem idle_close_uses_last_sample_time
    (idle now now2 now3 tid : Nat) (st : SysState) (seg : OpenSeg)
    (s3 : Sample) (sess : Session)
    (htr : st.track = .tracking tid (some seg))
    (hidle : idle ≤ now - seg.lastSample)
    (hmem : sess ∈ st.store) (hopen : sess.stop = none) :
    (tick idle now none st).track = .tracking tid none ∧
    (tick idle now none st).store = closeOpen seg.lastSample st.store ∧
    { sess with stop := some seg.lastSample } ∈ (tick idle now none st).store ∧
    openCount (tick idle now none st).store = 0 ∧
    tick idle now2 none (tick idle now none st) = tick idle now none st ∧
    (tick idle now3 (some s3) (tick idle now none st)).track
        = .tracking tid (some ⟨s3.app, s3.window, now3, now3, true⟩) ∧
    Session.mk tid s3.app s3.window now3 none
        ∈ (tick idle now3 (some s3) (tick idle now none st)).store := by
  obtain ⟨tks, tr, sto⟩ := st
  simp only at htr
  subst htr
  refine ⟨?_, ?_, ?_, ?_, ?_, ?_, ?_⟩
  · simp [tick, hidle]
  · simp [tick, hidle]
  · simp only [tick, hidle, if_pos]
    simp only [closeOpen, List.mem_map]
    exact ⟨sess, hmem, by simp [hopen]⟩
  · simp [tick, hidle, openCount_closeOpen]
  · simp [tick, hidle]
  · simp [tick, hidle]
  · simp [tick, hidle]

/-- C3: while `Tracking` with a populated segment, a sample whose
`(app, window)` pair differs from the current one — compared by exact string
equality on both fields — closes the current session at the sample time `now`
and opens a new session starting at that same instant; concretely, the run
`start; Editor; Editor; Browser; Editor; stop` produces exactly three
sessions, each contiguous with its neighbour (closing time = next opening
time), with no gap and no overlap. -/
theorem switch_closes_and_reopens_contiguously
    (idle now tid : Nat) (st : SysState) (seg : OpenSeg) (s : Sample)
    (htr : st.track = .tracking tid (some seg))
    (hsampled : seg.sampled = true)
    (hne : ¬(s.app = seg.app ∧ s.window = seg.window)) :
    (tick idle now (some s) st).store
        = closeOpen now st.store ++ [⟨tid, s.app, s.window, now, none⟩] ∧
    (tick idle now (some s) st).track
        = .tracking tid (some ⟨s.app, s.window, now, now, true⟩) ∧
    (run 300 (initState [7])
        [.start 10 7, .probe 11 (some ⟨"Editor", "w1"⟩),
         .probe 12 (some ⟨"Editor", "w1"⟩), .probe 13 (some ⟨"Browser", "w2"⟩),
         .probe 14 (some ⟨"Editor", "w1"⟩), .stop 15]).store
      = [⟨7, "Editor", "w1", 10, some 13⟩, ⟨7, "Browser", "w2", 13, some 14⟩,
         ⟨7, "Editor", "w1", 14, some 15⟩] := by
  obtain ⟨tks, tr, sto⟩ := st
  simp only at htr
  subst htr
  refine ⟨?_, ?_, ?_⟩
  · simp [tick, hsampled, hne]
  · simp [tick, hsampled, hne]
  · decide

/-- C4: while `Tracking`, a sample whose `(app, window)` pair equals the
current one only updates `last_sample_time`, leaves the open session's end
null and writes no new row (the store is unchanged); consequently a run that
starts at `t0`, samples one fixed pair at arbitrary tick times, and stops at
`tN` creates exactly one session, with `end − start = tN − t0` (here exact:
the model's boundaries are the command times themselves). -/
theorem unchanged_pair_extends_single_session
    (idle now tid t0 tN : Nat) (ts : List Nat) (a w : String)
    (st : SysState) (seg : OpenSeg) (s : Sample)
    (htr : st.track = .tracking tid (some seg))
    (hsampled : seg.sampled = true)
    (heq : s.app = seg.app ∧ s.window = seg.window) :
    (tick idle now (some s) st).store = st.store ∧
    (tick idle now (some s) st).track
        = .tracking tid (some { seg with lastSample := now }) ∧
    ((run idle (initState [tid])
        (.start t0 tid ::
          ((ts.map fun t => .probe t (some ⟨a, w⟩)) ++ [.stop tN]))).store.map
      fun sess => (sess.taskId, sess.start, sess.stop)) = [(tid, t0, some tN)] := by
  obtain ⟨tks, tr, sto⟩ := st
  simp only at htr
  subst htr
  refine ⟨?_, ?_, ?_⟩
  · simp [tick, hsampled, heq.1, heq.2]
  · simp [tick, hsampled, heq.1, heq.2]
  · rw [run_cons]
    have h1 : step idle (initState [tid]) (.start t0 tid)
        = ⟨[tid], .tracking tid (some ⟨"unknown", "", t0, t0, false⟩),
           [⟨tid, "unknown", "", t0, none⟩]⟩ := by
      simp [step, startCmd, initState]
    rw [h1, run_append]
    obtain ⟨a'', w'', seg', hrun, -⟩ :=
      run_same_sample idle tid t0 a w ts [tid] "unknown" ""
        ⟨"unknown", "", t0, t0, false⟩ (fun h => absurd h (by simp))
    rw [hrun]
    simp [run, step, stopCmd, closeOpen]

theorem idle_close_uses_last_sample_time_witness :
    (tick 300 430 none ⟨[1], .tracking 1 (some ⟨"A", "w", 100, 120, true⟩),
        [⟨1, "A", "w", 100, none⟩]⟩).track = .tracking 1 none ∧
    (tick 300 430 none ⟨[1], .tracking 1 (some ⟨"A", "w", 100, 120, true⟩),
        [⟨1, "A", "w", 100, none⟩]⟩).store
      = closeOpen 120 [⟨1, "A", "w", 100, none⟩] ∧
    Session.mk 1 "A" "w" 100 (some 120)
      ∈ (tick 300 430 none ⟨[1], .tracking 1 (some ⟨"A", "w", 100, 120, true⟩),
          [⟨1, "A", "w", 100, none⟩]⟩).store ∧
    openCount (tick 300 430 none ⟨[1],
        .tracking 1 (some ⟨"A", "w", 100, 120, true⟩),
        [⟨1, "A", "w", 100, none⟩]⟩).store = 0 ∧
    tick 300 431 none (tick 300 430 none ⟨[1],
        .tracking 1 (some ⟨"A", "w", 100, 120, true⟩),
        [⟨1, "A", "w", 100, none⟩]⟩)
      = tick 300 430 none ⟨[1], .tracking 1 (some ⟨"A", "w", 100, 120, true⟩),
          [⟨1, "A", "w", 100, none⟩]⟩ ∧
    (tick 300 500 (some ⟨"B", "v"⟩) (tick 300 430 none ⟨[1],
        .tracking 1 (some ⟨"A", "w", 100, 120, true⟩),
        [⟨1, "A", "w", 100, none⟩]⟩)).track
      = .tracking 1 (some ⟨"B", "v", 500, 500, true⟩) ∧
    Session.mk 1 "B" "v" 500 none
      ∈ (tick 300 500 (some ⟨"B", "v"⟩) (tick 300 430 none ⟨[1],
          .tracking 1 (some ⟨"A", "w", 100, 120, true⟩),
          [⟨1, "A", "w", 100, none⟩]⟩)).store :=
  idle_close_uses_last_sample_time 300 430 431 500 1
    ⟨[1], .tracking 1 (some ⟨"A", "w", 100, 120, true⟩),
     [⟨1, "A", "w", 100, none⟩]⟩
    ⟨"A", "w", 100, 120, true⟩ ⟨"B", "v"⟩ ⟨1, "A", "w", 100, none⟩
    rfl (by decide) (by decide) rfl

theorem switch_closes_and_reopens_contiguously_witness :
    (tick 300 50 (some ⟨"B", "v"⟩) ⟨[1],
        .tracking 1 (some ⟨"A", "w", 10, 20, true⟩),
        [⟨1, "A", "w", 10, none⟩]⟩).store
      = closeOpen 50 [⟨1, "A", "w", 10, none⟩] ++ [⟨1, "B", "v", 50, none⟩] ∧
    (tick 300 50 (some ⟨"B", "v"⟩) ⟨[1],
        .tracking 1 (some ⟨"A", "w", 10, 20, true⟩),
        [⟨1, "A", "w", 10, none⟩]⟩).track
      = .tracking 1 (some ⟨"B", "v", 50, 50, true⟩) ∧
    (run 300 (initState [7])
        [.start 10 7, .probe 11 (some ⟨"Editor", "w1"⟩),
         .probe 12 (some ⟨"Editor", "w1"⟩), .probe 13 (some ⟨"Browser", "w2"⟩),
         .probe 14 (some ⟨"Editor", "w1"⟩), .stop 15]).store
      = [⟨7, "Editor", "w1", 10, some 13⟩, ⟨7, "Browser", "w2", 13, some 14⟩,
         ⟨7, "Editor", "w1", 14, some 15⟩] :=
  switch_closes_and_reopens_contiguously 300 50 1
    ⟨[1], .tracking 1 (some ⟨"A", "w", 10, 20, true⟩),
     [⟨1, "A", "w", 10, none⟩]⟩
    ⟨"A", "w", 10, 20, true⟩ ⟨"B", "v"⟩ rfl rfl (by decide)

theorem unchanged_pair_extends_single_session_witness :
    (tick 300 12 (some ⟨"A", "w"⟩) ⟨[7],
        .tracking 7 (some ⟨"A", "w", 10, 11, true⟩),
        [⟨7, "A", "w", 10, none⟩]⟩).store = [⟨7, "A", "w", 10, none⟩] ∧
    (tick 300 12 (some ⟨"A", "w"⟩) ⟨[7],
        .tracking 7 (some ⟨"A", "w", 10, 11, true⟩),
        [⟨7, "A", "w", 10, none⟩]⟩).track
      = .tracking 7 (some ⟨"A", "w", 10, 12, true⟩) ∧
    ((run 300 (initState [7])
        (.start 10 7 ::
          (([11, 12].map fun t => .probe t (some ⟨"A", "w"⟩)) ++
            [.stop 20]))).store.map
      fun sess => (sess.taskId, sess.start, sess.stop)) = [(7, 10, some 20)] :=
  unchanged_pair_extends_single_session 300 12 7 10 20 [11, 12] "A" "w"
    ⟨[7], .tracking 7 (some ⟨"A", "w", 10, 11, true⟩),
     [⟨7, "A", "w", 10, none⟩]⟩
    ⟨"A", "w", 10, 11, true⟩ ⟨"A", "w"⟩ rfl rfl ⟨rfl, rfl⟩

/-- C1: for every idle-timeout configuration, task table, and sequence of
probe samples and start/stop commands, at every point of the run at most one
session row in the entire store has a null end timestamp — tracking is
globally exclusive, not per-task. -/
theorem at_most_one_open_session (idle : Nat) (tasks : List Nat)
    (evs : List Event) :
    openCount (run idle (initState tasks) evs).store ≤ 1 := by
  have hg := goodState_run idle evs (initState tasks) (goodState_init tasks)
  unfold goodState at hg
  rw [hg]
  split <;> simp

theorem timelineSum_eq_dailyTotal (now d : Nat) (store : List Session)
    (h : noOpen store = true) :
    ((timeline d store).map (liveDuration now)).sum = dailyTotal d store := by
  induction store with
  | nil => rfl
  | cons s l ih =>
      rw [noOpen, List.all_cons, Bool.and_eq_true] at h
      obtain ⟨hs, hl⟩ := h
      have ih' := ih hl
      obtain ⟨e, he⟩ := Option.isSome_iff_exists.mp hs
      simp only [timeline, dailyTotal, List.filter_cons] at ih' ⊢
      by_cases hd : (dayOf s.start == d) = true
      · simp [hd, hs, he, liveDuration, closedDuration, ih']
      · simp [hd, hs, ih']

theorem summaryToday_eq_timelineSum (now : Nat) (store : List Session) :
    summaryToday now store
      = ((timeline (dayOf now) store).map (liveDuration now)).sum :=
  rfl

theorem summaryAllTime_eq_closedSum (now : Nat) (store : List Session)
    (h : noOpen store = true) :
    summaryAllTime now store = (store.map closedDuration).sum := by
  induction store with
  | nil => rfl
  | cons s l ih =>
      rw [noOpen, List.all_cons, Bool.and_eq_true] at h
      obtain ⟨hs, hl⟩ := h
      obtain ⟨e, he⟩ := Option.isSome_iff_exists.mp hs
      simp only [summaryAllTime, List.map_cons, List.sum_cons] at ih ⊢
      rw [ih hl]
      simp [liveDuration, closedDuration, he]

/-- C5: every aggregation bucket attributes a session's entire duration to
the day containing its start timestamp, with no splitting across day
boundaries — a closed session contributes `end − start` to `dayOf start` and
nothing to any other day, and the open live session likewise contributes its
whole `now − start` to today exactly when it started today; and the
summary's today figure agrees with daily(today)'s total whenever no session
is open. -/
theorem whole_duration_attributed_to_start_day
    (now d : Nat) (store : List Session) (s so : Session) (e : Nat)
    (hclosed : s.stop = some e)
    (hne : d ≠ dayOf s.start)
    (hopen : so.stop = none)
    (hnoopen : noOpen store = true) :
    dailyTotal (dayOf s.start) [s] = e - s.start ∧
    dailyTotal d [s] = 0 ∧
    summaryToday now [so]
        = (if dayOf so.start = dayOf now then now - so.start else 0) ∧
    summaryToday now store = dailyTotal (dayOf now) store := by
  refine ⟨?_, ?_, ?_, ?_⟩
  · simp [dailyTotal, hclosed, closedDuration]
  · have hd : (dayOf s.start == d) = false := by
      simp only [beq_eq_false_iff_ne]
      exact fun h => hne h.symm
    simp [dailyTotal, hd]
  · by_cases h : dayOf so.start = dayOf now <;>
      simp [summaryToday, liveDuration, hopen, h]
  · rw [summaryToday_eq_timelineSum]
    exact timelineSum_eq_dailyTotal now (dayOf now) store hnoopen

theorem whole_duration_attributed_to_start_day_witness :
    dailyTotal (dayOf 86300) [⟨1, "A", "w", 86300, some 86500⟩] = 200 ∧
    dailyTotal 1 [⟨1, "A", "w", 86300, some 86500⟩] = 0 ∧
    summaryToday 500 [⟨2, "B", "v", 100, none⟩]
        = (if dayOf 100 = dayOf 500 then 500 - 100 else 0) ∧
    summaryToday 500 [⟨1, "C", "u", 10, some 30⟩]
        = dailyTotal (dayOf 500) [⟨1, "C", "u", 10, some 30⟩] := by
  have h := whole_duration_attributed_to_start_day 500 1
    [⟨1, "C", "u", 10, some 30⟩] ⟨1, "A", "w", 86300, some 86500⟩
    ⟨2, "B", "v", 100, none⟩ 86500 rfl (by decide) rfl (by decide)
  simpa using h

/-- C7: aggregation is a pure function of the session store — for every store
and closed session in it, the timeline path returns the very session row (so
its reported duration is `end − start`), the live and closed duration
formulas agree on it, and when no session is open the timeline path's day
total equals the daily path's total for every day while the summary path's
all-time total equals the sum of closed durations, so every query path
reproduces the same durations from the same store. -/
theorem aggregation_round_trip
    (now d : Nat) (store : List Session) (s : Session) (e : Nat)
    (hmem : s ∈ store) (hclosed : s.stop = some e)
    (hnoopen : noOpen store = true) :
    s ∈ timeline (dayOf s.start) store ∧
    liveDuration now s = e - s.start ∧
    closedDuration s = e - s.start ∧
    ((timeline d store).map (liveDuration now)).sum = dailyTotal d store ∧
    summaryAllTime now store = (store.map closedDuration).sum := by
  refine ⟨?_, ?_, ?_, ?_, ?_⟩
  · simp [timeline, List.mem_filter, hmem]
  · simp [liveDuration, hclosed]
  · simp [closedDuration, hclosed]
  · exact timelineSum_eq_dailyTotal now d store hnoopen
  · exact summaryAllTime_eq_closedSum now store hnoopen

theorem aggregation_round_trip_witness :
    Session.mk 1 "A" "w" 10 (some 30) ∈
      timeline (dayOf 10) [⟨1, "A", "w", 10, some 30⟩, ⟨2, "B", "v", 40, some 90⟩] ∧
    liveDuration 500 ⟨1, "A", "w", 10, some 30⟩ = 20 ∧
    closedDuration ⟨1, "A", "w", 10, some 30⟩ = 20 ∧
    ((timeline 0 [⟨1, "A", "w", 10, some 30⟩, ⟨2, "B", "v", 40, some 90⟩]).map
        (liveDuration 500)).sum
      = dailyTotal 0 [⟨1, "A", "w", 10, some 30⟩, ⟨2, "B", "v", 40, some 90⟩] ∧
    summaryAllTime 500 [⟨1, "A", "w", 10, some 30⟩, ⟨2, "B", "v", 40, some 90⟩]
      = ([⟨1, "A", "w", 10, some 30⟩, ⟨2, "B", "v", 40, some 90⟩].map
          closedDuration).sum := by
  have h := aggregation_round_trip 500 0
    [⟨1, "A", "w", 10, some 30⟩, ⟨2, "B", "v", 40, some 90⟩]
    ⟨1, "A", "w", 10, some 30⟩ 30 (by decide) rfl (by decide)
  simpa using h

theorem goodState_track_of_open (st : SysState) (hg : goodState st)
    (ho : openCount st.store = 1) :
    ∃ tid seg, st.track = .tracking tid (some seg) := by
  rw [goodState, ho] at hg
  cases htr : st.track with
  | stopped =>
      rw [htr] at hg
      simp [hasOpenSeg] at hg
  | tracking tid seg =>
      cases seg with
      | none =>
          rw [htr] at hg
          simp [hasOpenSeg] at hg
      | some sg => exact ⟨tid, sg, rfl⟩

theorem goodState_no_seg_of_closed (st : SysState) (hg : goodState st)
    (ho : openCount st.store = 0) :
    hasOpenSeg st.track = false := by
  rw [goodState, ho] at hg
  cases h : hasOpenSeg st.track with
  | false => rfl
  | true =>
      rw [h] at hg
      simp at hg

/-- C6: `start(task_id)` fails with `InvalidTask` when the task id does not
exist and with `AlreadyTracking` when a session is already open (in any
reachable, i.e. `goodState`, state), and on success returns the new
open-session descriptor; `stop()` fails with `NotTracking` when nothing is
open and otherwise closes the open session and returns its final duration;
each failure surfaces as a non-2xx response whose body carries a
`{detail: reason}` field, which the frontend's `fetchJSON` turns into an
error carrying exactly that reason. -/
theorem start_stop_error_contract
    (now1 tid1 now2 tid2 now3 tid3 now4 now5 tid5 : Nat)
    (st1 st2 st3 st4 st5 : SysState) (seg : OpenSeg) (err : TrackError)
    (h1 : tid1 ∉ st1.tasks)
    (h2g : goodState st2) (h2o : openCount st2.store = 1)
    (h2m : tid2 ∈ st2.tasks)
    (h3t : st3.track = .stopped) (h3m : tid3 ∈ st3.tasks)
    (h4g : goodState st4) (h4o : openCount st4.store = 0)
    (h5 : st5.track = .tracking tid5 (some seg)) :
    startCmd now1 tid1 st1 = .error .invalidTask ∧
    startCmd now2 tid2 st2 = .error .alreadyTracking ∧
    startCmd now3 tid3 st3
        = .ok ({ st3 with
                  track := .tracking tid3 (some ⟨"unknown", "", now3, now3, false⟩),
                  store := st3.store ++ [⟨tid3, "unknown", "", now3, none⟩] },
               ⟨tid3, "unknown", "", now3, none⟩) ∧
    stopCmd now4 st4 = .error .notTracking ∧
    stopCmd now5 st5
        = .ok ({ st5 with track := .stopped, store := closeOpen now5 st5.store },
               now5 - seg.segStart) ∧
    cmdResponse (α := SysState × Session) (.error err) = ⟨400, some err.reason⟩ ∧
    is2xx (cmdResponse (α := SysState × Session) (.error err)).status = false ∧
    FrontendCute.fetchJSON false (some err.reason) () = .error err.reason := by
  refine ⟨?_, ?_, ?_, ?_, ?_, rfl, rfl, ?_⟩
  · simp [startCmd, h1]
  · obtain ⟨t2, sg2, htr2⟩ := goodState_track_of_open st2 h2g h2o
    obtain ⟨tks2, tr2, sto2⟩ := st2
    simp only at htr2
    subst htr2
    simp only at h2m
    simp [startCmd, h2m]
  · obtain ⟨tks3, tr3, sto3⟩ := st3
    simp only at h3t h3m
    subst h3t
    simp [startCmd, h3m]
  · have h4 := goodState_no_seg_of_closed st4 h4g h4o
    obtain ⟨tks4, tr4, sto4⟩ := st4
    simp only [hasOpenSeg] at h4
    cases tr4 with
    | stopped => simp [stopCmd]
    | tracking t sg =>
        cases sg with
        | none => simp [stopCmd]
        | some s => simp [hasOpenSeg] at h4
  · obtain ⟨tks5, tr5, sto5⟩ := st5
    simp only at h5
    subst h5
    simp [stopCmd]
  · cases err <;> simp [TrackError.reason, FrontendCute.fetchJSON,
      FrontendCute.detailOrFallback]

theorem start_stop_error_contract_witness :
    startCmd 5 9 (initState [1]) = .error .invalidTask ∧
    startCmd 6 1 ⟨[1], .tracking 1 (some ⟨"A", "w", 2, 3, true⟩),
        [⟨1, "A", "w", 2, none⟩]⟩ = .error .alreadyTracking ∧
    startCmd 7 1 (initState [1])
        = .ok ({ initState [1] with
                  track := .tracking 1 (some ⟨"unknown", "", 7, 7, false⟩),
                  store := (initState [1]).store ++ [⟨1, "unknown", "", 7, none⟩] },
               ⟨1, "unknown", "", 7, none⟩) ∧
    stopCmd 8 (initState [1]) = .error .notTracking ∧
    stopCmd 9 ⟨[1], .tracking 1 (some ⟨"A", "w", 2, 3, true⟩),
        [⟨1, "A", "w", 2, none⟩]⟩
        = .ok ({ (⟨[1], .tracking 1 (some ⟨"A", "w", 2, 3, true⟩),
                    [⟨1, "A", "w", 2, none⟩]⟩ : SysState) with
                  track := .stopped,
                  store := closeOpen 9 [⟨1, "A", "w", 2, none⟩] },
               9 - 2) ∧
    cmdResponse (α := SysState × Session) (.error .notTracking)
        = ⟨400, some TrackError.notTracking.reason⟩ ∧
    is2xx (cmdResponse (α := SysState × Session)
        (.error TrackError.notTracking)).status = false ∧
    FrontendCute.fetchJSON false (some TrackError.notTracking.reason) ()
        = .error TrackError.notTracking.reason :=
  start_stop_error_contract 5 9 6 1 7 1 8 9 1
    (initState [1])
    ⟨[1], .tracking 1 (some ⟨"A", "w", 2, 3, true⟩), [⟨1, "A", "w", 2, none⟩]⟩
    (initState [1]) (initState [1])
    ⟨[1], .tracking 1 (some ⟨"A", "w", 2, 3, true⟩), [⟨1, "A", "w", 2, none⟩]⟩
    ⟨"A", "w", 2, 3, true⟩ .notTracking
    (by decide) (by unfold goodState; decide) (by decide) (by decide) rfl
    (by decide) (by unfold goodState; decide) (by decide) rfl

/-- C8: the read query endpoints — tracker status, stats (summary/daily) and
timeline — are total functions of the state that never return an error
(`readQueries` is `.ok` on every state), and on the fresh state where
tracking has never run they return empty or zeroed results. -/
theorem read_queries_always_succeed
    (now d : Nat) (tasks : List Nat) (st : SysState) :
    readQueries now d st
        = .ok (statusQuery st, summaryToday now st.store,
               dailyTotal d st.store, timeline d st.store) ∧
    statusQuery (initState tasks) = ⟨false, none, none, none⟩ ∧
    summaryToday now (initState tasks).store = 0 ∧
    dailyTotal d (initState tasks).store = 0 ∧
    timeline d (initState tasks).store = [] := by
  exact ⟨rfl, rfl, rfl, rfl, rfl⟩

/-- C9: deleting a non-default existing folder keeps every task (none are
deleted), moves exactly the tasks of the deleted folder to the default
folder's id and leaves all other tasks' folders unchanged; deleting the
default folder fails with `CannotDeleteDefault`; and the default folder
keeps existing and no task is left pointing at a missing folder, so tasks
are never orphaned. -/
theorem delete_folder_reassigns_to_default
    (fid : Nat) (db : FolderDb) (db2 : FolderDb)
    (hne : fid ≠ db.defaultId)
    (hex : hasFolder db fid = true)
    (hdef : hasFolder db db.defaultId = true)
    (horph : noOrphans db)
    (hok : deleteFolder fid db = .ok db2) :
    db2.tasks.length = db.tasks.length ∧
    (∀ t ∈ db.tasks, t.folderId = fid →
        { t with folderId := db.defaultId } ∈ db2.tasks) ∧
    (∀ t ∈ db.tasks, t.folderId ≠ fid → t ∈ db2.tasks) ∧
    (∀ t ∈ db2.tasks, t.folderId ≠ fid) ∧
    deleteFolder db.defaultId db = .error .cannotDeleteDefault ∧
    hasFolder db2 db2.defaultId = true ∧
    noOrphans db2 := by
  have hstep : deleteFolder fid db = .ok { db with
      folders := db.folders.filter fun f => f.id != fid,
      tasks := db.tasks.map fun t =>
        if t.folderId = fid then { t with folderId := db.defaultId } else t } := by
    unfold deleteFolder
    rw [if_neg hne]
    simp [hex]
  rw [hstep] at hok
  injection hok with hok
  subst hok
  have hdefault2 : (db.folders.filter fun f => f.id != fid).any
      (fun f => f.id == db.defaultId) = true := by
    rw [hasFolder, List.any_eq_true] at hdef
    obtain ⟨f, hf, hfq⟩ := hdef
    rw [List.any_eq_true]
    refine ⟨f, List.mem_filter.mpr ⟨hf, ?_⟩, hfq⟩
    rw [bne_iff_ne]
    intro hc
    exact hne ((beq_iff_eq.mp hfq ▸ hc : db.defaultId = fid)).symm
  refine ⟨?_, ?_, ?_, ?_, ?_, ?_, ?_⟩
  · exact List.length_map _ _
  · intro t ht hfid
    exact List.mem_map.mpr ⟨t, ht, by rw [if_pos hfid]⟩
  · intro t ht hfid
    exact List.mem_map.mpr ⟨t, ht, by rw [if_neg hfid]⟩
  · intro t' ht'
    obtain ⟨t, ht, rfl⟩ := List.mem_map.mp ht'
    by_cases h : t.folderId = fid
    · rw [if_pos h]
      exact fun hc => hne hc.symm
    · rw [if_neg h]
      exact h
  · unfold deleteFolder
    rw [if_pos rfl]
  · exact hdefault2
  · intro t' ht'
    obtain ⟨t, ht, rfl⟩ := List.mem_map.mp ht'
    by_cases h : t.folderId = fid
    · rw [if_pos h]
      exact hdefault2
    · rw [if_neg h]
      have hmem := horph t ht
      rw [hasFolder, List.any_eq_true] at hmem
      obtain ⟨f, hf, hfq⟩ := hmem
      rw [hasFolder, List.any_eq_true]
      refine ⟨f, List.mem_filter.mpr ⟨hf, ?_⟩, hfq⟩
      rw [bne_iff_ne]
      intro hc
      exact h ((beq_iff_eq.mp hfq).symm.trans hc)

theorem delete_folder_reassigns_to_default_witness :
    (FolderDb.mk [⟨1, "Default"⟩] 1
        [⟨10, "t1", 1⟩, ⟨11, "t2", 1⟩, ⟨12, "t3", 1⟩]).tasks.length
      = (FolderDb.mk [⟨1, "Default"⟩, ⟨2, "Work"⟩] 1
          [⟨10, "t1", 2⟩, ⟨11, "t2", 1⟩, ⟨12, "t3", 2⟩]).tasks.length ∧
    (∀ t ∈ (FolderDb.mk [⟨1, "Default"⟩, ⟨2, "Work"⟩] 1
        [⟨10, "t1", 2⟩, ⟨11, "t2", 1⟩, ⟨12, "t3", 2⟩]).tasks, t.folderId = 2 →
        { t with folderId := 1 } ∈ (FolderDb.mk [⟨1, "Default"⟩] 1
            [⟨10, "t1", 1⟩, ⟨11, "t2", 1⟩, ⟨12, "t3", 1⟩]).tasks) ∧
    (∀ t ∈ (FolderDb.mk [⟨1, "Default"⟩, ⟨2, "Work"⟩] 1
        [⟨10, "t1", 2⟩, ⟨11, "t2", 1⟩, ⟨12, "t3", 2⟩]).tasks, t.folderId ≠ 2 →
        t ∈ (FolderDb.mk [⟨1, "Default"⟩] 1
            [⟨10, "t1", 1⟩, ⟨11, "t2", 1⟩, ⟨12, "t3", 1⟩]).tasks) ∧
    (∀ t ∈ (FolderDb.mk [⟨1, "Default"⟩] 1
        [⟨10, "t1", 1⟩, ⟨11, "t2", 1⟩, ⟨12, "t3", 1⟩]).tasks, t.folderId ≠ 2) ∧
    deleteFolder 1 (FolderDb.mk [⟨1, "Default"⟩, ⟨2, "Work"⟩] 1
        [⟨10, "t1", 2⟩, ⟨11, "t2", 1⟩, ⟨12, "t3", 2⟩])
      = .error .cannotDeleteDefault ∧
    hasFolder (FolderDb.mk [⟨1, "Default"⟩] 1
        [⟨10, "t1", 1⟩, ⟨11, "t2", 1⟩, ⟨12, "t3", 1⟩])
        (FolderDb.mk [⟨1, "Default"⟩] 1
          [⟨10, "t1", 1⟩, ⟨11, "t2", 1⟩, ⟨12, "t3", 1⟩]).defaultId = true ∧
    noOrphans (FolderDb.mk [⟨1, "Default"⟩] 1
        [⟨10, "t1", 1⟩, ⟨11, "t2", 1⟩, ⟨12, "t3", 1⟩]) :=
  delete_folder_reassigns_to_default 2
    (FolderDb.mk [⟨1, "Default"⟩, ⟨2, "Work"⟩] 1
      [⟨10, "t1", 2⟩, ⟨11, "t2", 1⟩, ⟨12, "t3", 2⟩])
    (FolderDb.mk [⟨1, "Default"⟩] 1
      [⟨10, "t1", 1⟩, ⟨11, "t2", 1⟩, ⟨12, "t3", 1⟩])
    (by decide) (by decide) (by decide)
    (by intro t ht; fin_cases ht <;> decide) rfl

end TimeTracker

/-- C10 counterexample: at the integer input −5 the classic frontend's
`formatDuration` returns "-5s" while the cute frontend's returns "0s", so
the two functions are not extensionally equal on all numeric inputs. -/
theorem formatDuration_not_extensionally_equal :
    Frontend.formatDuration (-5) ≠ FrontendCute.formatDuration (-5) := by
  decide

/-- C10 (amended): the two frontends' `formatDuration` functions agree on
every non-negative integer input; they differ only on negative inputs, where
the cute frontend clamps to "0s". -/
theorem formatDuration_agree_on_nonneg (seconds : Int) (h : 0 ≤ seconds) :
    Frontend.formatDuration seconds = FrontendCute.formatDuration seconds := by
  unfold Frontend.formatDuration FrontendCute.formatDuration
  by_cases h0 : seconds = 0
  · simp [h0]
  · have hneg : ¬seconds < 0 := not_lt.mpr h
    have hor : ¬(seconds = 0 ∨ seconds < 0) := fun hc => Or.elim hc h0 hneg
    rw [if_neg h0, if_neg hor]

theorem formatDuration_agree_on_nonneg_witness :
    (0 : Int) ≤ 3661 ∧
    Frontend.formatDuration 3661 = FrontendCute.formatDuration 3661 :=
  ⟨by decide, formatDuration_agree_on_nonneg 3661 (by decide)⟩
